import Mathlib

/-
Verification development for the ssh-browser repository.

The Rust sources are shallowly embedded:
- `src/ssh.rs` — the `SSHConnection` struct and its operations. The `ssh2`
  handle types `Session` and `Sftp` are opaque foreign handles whose content
  is never inspected by the program, so they are modelled as `Unit`; only
  their presence (`some`/`none`) matters. Network effects are modelled as
  explicit oracle arguments: `connect` takes a `ConnectEnv` recording the
  outcome of each fallible ssh2 call it performs, `list_directory` takes the
  outcome of `sftp.readdir`, and so on. The SFTP server's file store and the
  local disk are modelled as maps `String → Option (List Nat)` from paths to
  file contents; a Rust `String`/`&str` payload is represented by its UTF-8
  byte sequence (a `List Nat`), so `a.cmp(&b)` on Rust strings is byte-wise
  lexicographic comparison of those sequences.
- `src/ui.rs` — the `Task`/`TaskResult` sum types, the background worker
  loop of `BackgroundWorker::new` (embedded as `handle_task` for one loop
  iteration and `run_worker` for draining a task queue), and the result
  handler `poll_worker` (embedded as `poll_worker_step` for one received
  result).
-/

/- The ssh2 `Session` handle: opaque, modelled by its presence only. -/
def Session : Type := Unit

/- The ssh2 `Sftp` handle: opaque, modelled by its presence only. -/
def Sftp : Type := Unit

/- `struct SSHConnection` from src/ssh.rs. -/
structure SSHConnection where
  hostname : String
  username : String
  password : String
  port : Nat
  session : Option Session
  sftp : Option Sftp

/- `struct ServerStats` from src/ssh.rs. -/
structure ServerStats where
  cpu_usage : String
  memory_usage : String
  disk_usage : String
deriving DecidableEq

/- `SSHConnection::new` from src/ssh.rs. -/
def SSHConnection.new (hostname username password : String) (port : Nat) :
    SSHConnection :=
  { hostname := hostname, username := username, password := password,
    port := port, session := none, sftp := none }

/- Outcomes of the fallible ssh2 calls performed by `SSHConnection::connect`,
in program order: `TcpStream::connect`, `Session::new`, `handshake`,
`userauth_password`, the `authenticated()` check, and `session.sftp()`. -/
structure ConnectEnv where
  tcpConnect : Except String Unit
  sessionNew : Except String Unit
  handshake : Except String Unit
  userauthPassword : Except String Unit
  authenticated : Bool
  sftpInit : Except String Unit

/- `SSHConnection::connect` from src/ssh.rs. Each `?` early return leaves
`self` untouched; only the final success assigns `self.session` and
`self.sftp`. -/
def SSHConnection.connect (self : SSHConnection) (env : ConnectEnv) :
    SSHConnection × Except String Unit :=
  match env.tcpConnect with
  | .error e => (self, .error ("Connection error: " ++ e))
  | .ok _ =>
    match env.sessionNew with
    | .error e => (self, .error ("Session creation error: " ++ e))
    | .ok _ =>
      match env.handshake with
      | .error e => (self, .error ("Handshake error: " ++ e))
      | .ok _ =>
        match env.userauthPassword with
        | .error e => (self, .error ("Authentication error: " ++ e))
        | .ok _ =>
          if !env.authenticated then
            (self, .error "Authentication failed. Check your username and password.")
          else
            match env.sftpInit with
            | .error e => (self, .error ("SFTP initialization error: " ++ e))
            | .ok _ =>
              ({ self with session := some (), sftp := some () }, .ok ())

/- `SSHConnection::disconnect` from src/ssh.rs. -/
def SSHConnection.disconnect (self : SSHConnection) : SSHConnection :=
  { self with sftp := none, session := none }

/- `.map_err(|e| format!(...))` on a `Result<T, String>`. -/
def mapErr {α : Type} (r : Except String α) (f : String → String) :
    Except String α :=
  match r with
  | .ok a => .ok a
  | .error e => .error (f e)

/- A remote or local file store: paths to file contents (UTF-8 bytes). -/
def FileMap : Type := String → Option (List Nat)

/- Functional update of a file store at one path. -/
def FileMap.insert (fs : FileMap) (path : String) (content : List Nat) :
    FileMap :=
  fun p => if p = path then some content else fs p

/- `SSHConnection::delete_file` from src/ssh.rs; `unlinkRes` is the outcome
of the `sftp.unlink` call. -/
def SSHConnection.delete_file (self : SSHConnection)
    (unlinkRes : Except String Unit) : Except String Unit :=
  match self.sftp with
  | some _ => mapErr unlinkRes (fun e => "Failed to delete file: " ++ e)
  | none => .error "SFTP subsystem not initialized."

/- One raw entry returned by `sftp.readdir`: the `file_name()` of its path
(`none` when the path has no final component) and `stat.is_dir()`. -/
def RawEntry : Type := Option String × Bool

/- The entry-collection loop of `SSHConnection::list_directory`: keep the
entries whose path has a file name. -/
def processEntries (entries : List RawEntry) : List (String × Bool) :=
  entries.filterMap (fun e => e.1.map (fun n => (n, e.2)))

/- Byte/codepoint-wise lexicographic comparison of strings as lists of
characters: the embedding of Rust's `String::cmp`, which compares UTF-8
byte sequences (UTF-8 encoding preserves codepoint order). -/
def nameCmp : List Char → List Char → Ordering
  | [], [] => .eq
  | [], _ :: _ => .lt
  | _ :: _, [] => .gt
  | a :: as, b :: bs =>
    if a < b then .lt else if b < a then .gt else nameCmp as bs

/- The comparator closure passed to `result.sort_by` in
`SSHConnection::list_directory`: directories first, then `a.0.cmp(&b.0)`. -/
def entry_cmp (a b : String × Bool) : Ordering :=
  if a.2 && !b.2 then .lt
  else if !a.2 && b.2 then .gt
  else nameCmp a.1.data b.1.data

/- Insertion step of a stable comparator sort: an element moves left past
exactly the elements it compares `lt` to. -/
def insertBy {α : Type} (cmp : α → α → Ordering) (x : α) :
    List α → List α
  | [] => [x]
  | y :: ys =>
    match cmp x y with
    | .lt => x :: y :: ys
    | _ => y :: insertBy cmp x ys

/- Stable comparator sort: the embedding of `Vec::sort_by` (a stable sort by
the given comparator; for this comparator, elements comparing `eq` are
equal, so every stable sort produces this result). -/
def sort_by {α : Type} (cmp : α → α → Ordering) : List α → List α
  | [] => []
  | x :: xs => insertBy cmp x (sort_by cmp xs)

/- `SSHConnection::list_directory` from src/ssh.rs; `readdirRes` is the
outcome of the `sftp.readdir` call. -/
def SSHConnection.list_directory (self : SSHConnection)
    (readdirRes : Except String (List RawEntry)) :
    Except String (List (String × Bool)) :=
  match self.sftp with
  | none => .error "SFTP subsystem not initialized."
  | some _ =>
    match readdirRes with
    | .error e => .error ("Failed to read directory: " ++ e)
    | .ok entries => .ok (sort_by entry_cmp (processEntries entries))

/- `SSHConnection::read_file` from src/ssh.rs against the file-store model:
`sftp.open` fails when the path is absent, then `read_to_string` returns the
whole content. (The invalid-UTF-8 failure of `read_to_string` is not
modelled: contents read here are byte sequences of Rust strings.) -/
def SSHConnection.read_file (self : SSHConnection) (fs : FileMap)
    (remote_path : String) : Except String (List Nat) :=
  match self.sftp with
  | none => .error "SFTP subsystem not initialized."
  | some _ =>
    match fs remote_path with
    | none => .error ("Failed to open file: " ++ "no such file")
    | some content => .ok content

/- `SSHConnection::write_file` from src/ssh.rs against the file-store model:
`sftp.create` truncates or creates the file, `write_all` stores the content.
Returns the updated store with the call's result. -/
def SSHConnection.write_file (self : SSHConnection) (fs : FileMap)
    (remote_path : String) (content : List Nat) :
    FileMap × Except String Unit :=
  match self.sftp with
  | none => (fs, .error "SFTP subsystem not initialized.")
  | some _ => (fs.insert remote_path content, .ok ())

/- `SSHConnection::create_file` from src/ssh.rs against the file-store
model: `sftp.create` plus `write_all(b"")` stores a zero-length file. -/
def SSHConnection.create_file (self : SSHConnection) (fs : FileMap)
    (path : String) : FileMap × Except String Unit :=
  match self.sftp with
  | none => (fs, .error "SFTP subsystem not initialized.")
  | some _ => (fs.insert path [], .ok ())

/- `SSHConnection::create_directory` from src/ssh.rs; `mkdirRes` is the
outcome of the `sftp.mkdir` call. -/
def SSHConnection.create_directory (self : SSHConnection)
    (mkdirRes : Except String Unit) : Except String Unit :=
  match self.sftp with
  | some _ => mapErr mkdirRes (fun e => "Failed to create directory: " ++ e)
  | none => .error "SFTP subsystem not initialized."

/- `SSHConnection::rename` from src/ssh.rs; `renameRes` is the outcome of
the `sftp.rename` call. -/
def SSHConnection.rename (self : SSHConnection)
    (renameRes : Except String Unit) : Except String Unit :=
  match self.sftp with
  | some _ => mapErr renameRes (fun e => "Failed to rename: " ++ e)
  | none => .error "SFTP session not initialized."

/- The 8 KiB copy loop shared by `download_file` and `upload_file`: each
iteration reads at most 8192 bytes from the source and appends them to the
destination; a read of 0 bytes ends the loop. -/
def copyLoop (src dst : List Nat) : List Nat :=
  if src.isEmpty then dst
  else copyLoop (src.drop 8192) (dst ++ src.take 8192)
termination_by src.length
decreasing_by
  cases src with
  | nil => simp [List.isEmpty] at *
  | cons a l =>
    simp only [List.length_drop, List.length_cons]
    omega

/- `SSHConnection::download_file` from src/ssh.rs: open the remote file
(fails when absent), create the local file, stream-copy in 8192-byte
chunks. Returns the updated local store with the call's result. -/
def SSHConnection.download_file (self : SSHConnection)
    (remoteFS localFS : FileMap) (remote_path local_path : String) :
    FileMap × Except String Unit :=
  match self.sftp with
  | none => (localFS, .error "SFTP subsystem not initialized.")
  | some _ =>
    match remoteFS remote_path with
    | none => (localFS, .error ("Failed to open remote file: " ++ "no such file"))
    | some content => (localFS.insert local_path (copyLoop content []), .ok ())

/- `SSHConnection::upload_file` from src/ssh.rs: open the local file (fails
when absent), open the remote file with WRITE|CREATE|TRUNCATE, stream-copy
in 8192-byte chunks. Returns the updated remote store with the result. -/
def SSHConnection.upload_file (self : SSHConnection)
    (localFS remoteFS : FileMap) (local_path remote_path : String) :
    FileMap × Except String Unit :=
  match self.sftp with
  | none => (remoteFS, .error "SFTP subsystem not initialized.")
  | some _ =>
    match localFS local_path with
    | none => (remoteFS, .error ("Failed to open local file: " ++ "no such file"))
    | some content => (remoteFS.insert remote_path (copyLoop content []), .ok ())

/- Rust `str::split_whitespace` over the character list: the maximal
nonempty runs of non-whitespace characters, in order; `acc` holds the
current run reversed. -/
def splitWhitespaceAux : List Char → List Char → List String
  | [], acc => if acc.isEmpty then [] else [String.mk acc.reverse]
  | c :: cs, acc =>
    if c.isWhitespace then
      if acc.isEmpty then splitWhitespaceAux cs []
      else String.mk acc.reverse :: splitWhitespaceAux cs []
    else splitWhitespaceAux cs (c :: acc)

def splitWhitespace (s : String) : List String :=
  splitWhitespaceAux s.data []

/- `SSHConnection::process_stats` from src/ssh.rs, totalised: the source
indexes the whitespace-split fields at fixed positions (`cpu_parts[1]` etc.)
with no bounds check, which panics when a field is missing; the embedding
returns `none` exactly on such an out-of-range index. -/
def process_stats (raw_cpu raw_mem raw_disk : String) : Option ServerStats := do
  let cpu_parts := splitWhitespace raw_cpu
  let c1 ← cpu_parts.get? 1
  let c3 ← cpu_parts.get? 3
  let c7 ← cpu_parts.get? 7
  let c15 ← cpu_parts.get? 15
  let cpu_usage :=
    "User: " ++ c1 ++ "%, System: " ++ c3 ++ "%, Idle: " ++ c7 ++
      "%, Steal: " ++ c15 ++ "%"
  let mem_parts := splitWhitespace raw_mem
  let m1 ← mem_parts.get? 1
  let m2 ← mem_parts.get? 2
  let m3 ← mem_parts.get? 3
  let m5 ← mem_parts.get? 5
  let memory_usage :=
    "Total: " ++ m1 ++ ", Used: " ++ m2 ++ ", Free: " ++ m3 ++
      ", Buffers/Cache: " ++ m5
  let disk_parts := splitWhitespace raw_disk
  let d0 ← disk_parts.get? 0
  let d1 ← disk_parts.get? 1
  let d2 ← disk_parts.get? 2
  let d3 ← disk_parts.get? 3
  let d4 ← disk_parts.get? 4
  let disk_usage :=
    "Filesystem: " ++ d0 ++ ", Total: " ++ d1 ++ ", Used: " ++ d2 ++
      ", Available: " ++ d3 ++ ", Usage: " ++ d4
  some { cpu_usage := cpu_usage, memory_usage := memory_usage,
         disk_usage := disk_usage }

/- `SSHConnection::fetch_stats` from src/ssh.rs; `runCmd` gives the outcome
of `run_command` on each of the three fixed diagnostic commands. The inner
`Option` is the totalised panic of `process_stats`. -/
def SSHConnection.fetch_stats (self : SSHConnection)
    (runCmd : String → Except String String) :
    Except String (Option ServerStats) :=
  match self.session with
  | none => .error "Session not initialized."
  | some _ => do
    let raw_cpu ← runCmd "top -bn1 | grep \"Cpu(s)\""
    let raw_mem ← runCmd "free -h | grep \"Mem:\""
    let raw_disk ← runCmd "df -h / | tail -1"
    .ok (process_stats raw_cpu raw_mem raw_disk)

namespace Ui

/- `enum Task` from src/ui.rs (`Task` is namespaced to avoid the unrelated
core type of the same name). A `WriteFile` content, like file contents in
the store, is the UTF-8 byte sequence of the Rust `String`. The Rust binder
names `local` and `new` are Lean keywords, hence `local_path`/`new_path`. -/
inductive Task where
  | Connect (hostname username password : String) (port : Nat)
  | ListDirectory (path : String)
  | CreateDirectory (path : String)
  | CreateFile (path : String)
  | DownloadFile (remote_path local_path : String)
  | UploadFile (local_path remote_path : String)
  | DeleteFile (path : String)
  | RenameFile (old_path new_path : String)
  | ReadFile (path : String)
  | WriteFile (path : String) (content : List Nat)
  | Disconnect

/- `enum TaskResult` from src/ui.rs. -/
inductive TaskResult where
  | ConnectResult (r : Except String Unit)
  | ListDirectoryResult (r : Except String (List (String × Bool)))
  | CreateDirectoryResult (r : Except String Unit)
  | CreateFileResult (r : Except String Unit)
  | DownloadFileResult (r : Except String Unit)
  | UploadFileResult (r : Except String Unit)
  | DeleteFileResult (r : Except String Unit)
  | RenameFileResult (r : Except String Unit)
  | ReadFileResult (r : Except String (List Nat))
  | WriteFileResult (r : Except String Unit)
  | DisconnectResult

/- The operation kinds shared by `Task` and `TaskResult` variants. -/
inductive TaskKind where
  | connect | listDirectory | createDirectory | createFile | downloadFile
  | uploadFile | deleteFile | renameFile | readFile | writeFile | disconnect
deriving DecidableEq

def taskKind : Task → TaskKind
  | .Connect _ _ _ _ => .connect
  | .ListDirectory _ => .listDirectory
  | .CreateDirectory _ => .createDirectory
  | .CreateFile _ => .createFile
  | .DownloadFile _ _ => .downloadFile
  | .UploadFile _ _ => .uploadFile
  | .DeleteFile _ => .deleteFile
  | .RenameFile _ _ => .renameFile
  | .ReadFile _ => .readFile
  | .WriteFile _ _ => .writeFile
  | .Disconnect => .disconnect

def resultKind : TaskResult → TaskKind
  | .ConnectResult _ => .connect
  | .ListDirectoryResult _ => .listDirectory
  | .CreateDirectoryResult _ => .createDirectory
  | .CreateFileResult _ => .createFile
  | .DownloadFileResult _ => .downloadFile
  | .UploadFileResult _ => .uploadFile
  | .DeleteFileResult _ => .deleteFile
  | .RenameFileResult _ => .renameFile
  | .ReadFileResult _ => .readFile
  | .WriteFileResult _ => .writeFile
  | .DisconnectResult => .disconnect

/- The worker thread's state: the `connection: Option<SSHConnection>` local
variable of the loop in `BackgroundWorker::new`, together with the remote
server's file store and the local disk the SSHConnection operations act
on. -/
structure WorkerState where
  connection : Option SSHConnection
  remoteFS : FileMap
  localFS : FileMap

/- The environment one task executes against: the outcomes of the ssh2
calls its handler may perform. -/
structure TaskEnv where
  connectEnv : ConnectEnv
  readdirRes : Except String (List RawEntry)
  mkdirRes : Except String Unit
  unlinkRes : Except String Unit
  renameRes : Except String Unit

/- One iteration of the worker loop in `BackgroundWorker::new` (src/ui.rs):
match on the received task, run it against the owned connection (adopting a
new one on a successful `Connect`), and emit exactly one `TaskResult`. -/
def handle_task (st : WorkerState) (t : Task) (env : TaskEnv) :
    WorkerState × TaskResult :=
  match t with
  | .Connect hostname username password port =>
    let conn := SSHConnection.new hostname username password port
    let res := conn.connect env.connectEnv
    match res.2 with
    | .ok _ => ({ st with connection := some res.1 }, .ConnectResult (.ok ()))
    | .error e =>
      (st, .ConnectResult (.error ("Failed to connect: " ++ e)))
  | .ListDirectory _path =>
    match st.connection with
    | some conn =>
      (st, .ListDirectoryResult (conn.list_directory env.readdirRes))
    | none => (st, .ListDirectoryResult (.error "Not connected"))
  | .CreateDirectory _path =>
    match st.connection with
    | some conn =>
      (st, .CreateDirectoryResult
        (mapErr (conn.create_directory env.mkdirRes)
          (fun e => "Failed to create directory: " ++ e)))
    | none => (st, .CreateDirectoryResult (.error "Not connected"))
  | .CreateFile path =>
    match st.connection with
    | some conn =>
      let r := conn.create_file st.remoteFS path
      ({ st with remoteFS := r.1 },
        .CreateFileResult (mapErr r.2 (fun e => "Failed to create file: " ++ e)))
    | none => (st, .CreateFileResult (.error "Not connected"))
  | .DownloadFile remote_path local_path =>
    match st.connection with
    | some conn =>
      let r := conn.download_file st.remoteFS st.localFS remote_path local_path
      ({ st with localFS := r.1 },
        .DownloadFileResult (mapErr r.2 (fun e => "Failed to download: " ++ e)))
    | none => (st, .DownloadFileResult (.error "Not connected"))
  | .UploadFile local_path remote_path =>
    match st.connection with
    | some conn =>
      let r := conn.upload_file st.localFS st.remoteFS local_path remote_path
      ({ st with remoteFS := r.1 },
        .UploadFileResult (mapErr r.2 (fun e => "Failed to upload: " ++ e)))
    | none => (st, .UploadFileResult (.error "Not connected"))
  | .DeleteFile _path =>
    match st.connection with
    | some conn =>
      (st, .DeleteFileResult
        (mapErr (conn.delete_file env.unlinkRes)
          (fun e => "Failed to delete: " ++ e)))
    | none => (st, .DeleteFileResult (.error "Not connected"))
  | .RenameFile _old _new =>
    match st.connection with
    | some conn =>
      (st, .RenameFileResult
        (mapErr (conn.rename env.renameRes)
          (fun e => "Failed to rename: " ++ e)))
    | none => (st, .RenameFileResult (.error "Not connected"))
  | .ReadFile path =>
    match st.connection with
    | some conn =>
      (st, .ReadFileResult
        (mapErr (conn.read_file st.remoteFS path)
          (fun e => "Failed to read file: " ++ e)))
    | none => (st, .ReadFileResult (.error "Not connected"))
  | .WriteFile path content =>
    match st.connection with
    | some conn =>
      let r := conn.write_file st.remoteFS path content
      ({ st with remoteFS := r.1 },
        .WriteFileResult (mapErr r.2 (fun e => "Failed to write file: " ++ e)))
    | none => (st, .WriteFileResult (.error "Not connected"))
  | .Disconnect =>
    match st.connection with
    | some conn =>
      let _ := conn.disconnect
      ({ st with connection := none }, .DisconnectResult)
    | none => ({ st with connection := none }, .DisconnectResult)

/- The worker loop of `BackgroundWorker::new` draining a queue of tasks in
FIFO order: the `mpsc` task channel delivers tasks in submission order to
this single consumer, which handles each to completion before receiving the
next, and the `mpsc` result channel preserves the emission order. Returns
the emitted results in order together with the final worker state. -/
def run_worker (st : WorkerState) :
    List (Task × TaskEnv) → List TaskResult × WorkerState
  | [] => ([], st)
  | (t, env) :: rest =>
    let r := handle_task st t env
    let rest_r := run_worker r.1 rest
    (r.2 :: rest_r.1, rest_r.2)

/- The fields of `UIState` (src/ui.rs) that `poll_worker` reads or writes;
`file_content` is the edited file's content as UTF-8 bytes. -/
structure UIStateM where
  connected : Bool
  current_path : String
  files : List (String × Bool)
  error_message : Option String
  editing_file : Option String
  file_content : List Nat
  operation_in_progress : Bool

/- Handling of one received result inside the drain loop of `poll_worker`
(src/ui.rs): `operation_in_progress` is reset first, then the match on the
result updates the state; success arms of several variants immediately
submit a follow-up `ListDirectory` task, returned here as the list of tasks
sent. -/
def poll_worker_step (st : UIStateM) (result : TaskResult) :
    UIStateM × List Task :=
  let st := { st with operation_in_progress := false }
  match result with
  | .ConnectResult res =>
    match res with
    | .ok _ =>
      ({ st with connected := true, current_path := "/",
                 operation_in_progress := true },
       [Task.ListDirectory "/"])
    | .error e =>
      ({ st with error_message := some e, connected := false }, [])
  | .ListDirectoryResult res =>
    match res with
    | .ok files => ({ st with files := files, error_message := none }, [])
    | .error e => ({ st with error_message := some e }, [])
  | .CreateDirectoryResult res =>
    match res with
    | .ok _ =>
      ({ st with error_message := some "Directory created successfully.",
                 operation_in_progress := true },
       [Task.ListDirectory st.current_path])
    | .error e => ({ st with error_message := some e }, [])
  | .CreateFileResult res =>
    match res with
    | .ok _ =>
      ({ st with error_message := some "File created successfully.",
                 operation_in_progress := true },
       [Task.ListDirectory st.current_path])
    | .error e => ({ st with error_message := some e }, [])
  | .DownloadFileResult res =>
    match res with
    | .ok _ => ({ st with error_message := some "Download successful" }, [])
    | .error e => ({ st with error_message := some e }, [])
  | .UploadFileResult res =>
    match res with
    | .ok _ =>
      ({ st with error_message := some "Upload successful",
                 operation_in_progress := true },
       [Task.ListDirectory st.current_path])
    | .error e => ({ st with error_message := some e }, [])
  | .DeleteFileResult res =>
    match res with
    | .ok _ =>
      ({ st with error_message := some "File deleted successfully.",
                 operation_in_progress := true },
       [Task.ListDirectory st.current_path])
    | .error e => ({ st with error_message := some e }, [])
  | .RenameFileResult res =>
    match res with
    | .ok _ =>
      ({ st with error_message := some "File renamed successfully.",
                 operation_in_progress := true },
       [Task.ListDirectory st.current_path])
    | .error e => ({ st with error_message := some e }, [])
  | .ReadFileResult res =>
    match res with
    | .ok content =>
      ({ st with file_content := content,
                 error_message := some "File content loaded." }, [])
    | .error e => ({ st with error_message := some e }, [])
  | .WriteFileResult res =>
    match res with
    | .ok _ =>
      ({ st with error_message := some "File saved successfully.",
                 editing_file := none }, [])
    | .error e => ({ st with error_message := some e }, [])
  | .DisconnectResult =>
    ({ st with connected := false, files := [], current_path := "/",
               error_message := some "Disconnected" }, [])

end Ui

/- The chunked copy loop transfers exactly the source bytes, appended to
whatever was already written. -/
theorem copyLoop_eq (src dst : List Nat) : copyLoop src dst = dst ++ src := by
  induction src, dst using copyLoop.induct with
  | case1 src dst h =>
    rw [copyLoop, if_pos h]
    rw [List.isEmpty_iff] at h
    simp [h]
  | case2 src dst h ih =>
    rw [copyLoop, if_neg h, ih, List.append_assoc, List.take_append_drop]

theorem nameCmp_eq_iff (a : List Char) : ∀ b, nameCmp a b = .eq ↔ a = b := by
  induction a with
  | nil => intro b; cases b <;> simp [nameCmp]
  | cons x xs ih =>
    intro b
    cases b with
    | nil => simp [nameCmp]
    | cons y ys =>
      simp only [nameCmp]
      by_cases h1 : x < y
      · rw [if_pos h1]
        constructor
        · intro h; cases h
        · intro h
          injection h with hx _
          exact absurd hx (ne_of_lt h1)
      · by_cases h2 : y < x
        · rw [if_neg h1, if_pos h2]
          constructor
          · intro h; cases h
          · intro h
            injection h with hx _
            exact absurd hx.symm (ne_of_lt h2)
        · have hxy : x = y := le_antisymm (not_lt.mp h2) (not_lt.mp h1)
          rw [if_neg h1, if_neg h2, ih ys]
          subst hxy
          constructor
          · intro h; rw [h]
          · intro h; injection h

theorem nameCmp_swap (a : List Char) : ∀ b, (nameCmp a b).swap = nameCmp b a := by
  induction a with
  | nil => intro b; cases b <;> simp [nameCmp, Ordering.swap]
  | cons x xs ih =>
    intro b
    cases b with
    | nil => simp [nameCmp, Ordering.swap]
    | cons y ys =>
      simp only [nameCmp]
      by_cases h1 : x < y
      · have h2 : ¬ y < x := asymm h1
        rw [if_pos h1, if_neg h2, if_pos h1]
        rfl
      · by_cases h2 : y < x
        · rw [if_neg h1, if_pos h2, if_pos h2]
          rfl
        · rw [if_neg h1, if_neg h2, if_neg h2, if_neg h1, ih ys]

/- Splitting a cons-cons comparison that is not `gt`. -/
theorem nameCmp_cons_le {x y : Char} {xs ys : List Char} :
    nameCmp (x :: xs) (y :: ys) ≠ .gt ↔
      x < y ∨ (x = y ∧ nameCmp xs ys ≠ .gt) := by
  simp only [nameCmp]
  by_cases h1 : x < y
  · rw [if_pos h1]
    simp [h1]
  · by_cases h2 : y < x
    · rw [if_neg h1, if_pos h2]
      simp [h1]
      intro h
      exact absurd h.symm (ne_of_lt h2)
    · have hxy : x = y := le_antisymm (not_lt.mp h2) (not_lt.mp h1)
      rw [if_neg h1, if_neg h2]
      simp [h1, hxy]

theorem nameCmp_le_trans (a : List Char) : ∀ b c : List Char,
    nameCmp a b ≠ .gt → nameCmp b c ≠ .gt → nameCmp a c ≠ .gt := by
  induction a with
  | nil =>
    intro b c _ _
    cases c <;> simp [nameCmp]
  | cons x xs ih =>
    intro b c h1 h2
    cases b with
    | nil => simp [nameCmp] at h1
    | cons y ys =>
      cases c with
      | nil => simp [nameCmp] at h2
      | cons z zs =>
        rw [nameCmp_cons_le] at h1 h2 ⊢
        rcases h1 with hxy | ⟨hxy, hxs⟩
        · rcases h2 with hyz | ⟨hyz, _⟩
          · exact Or.inl (lt_trans hxy hyz)
          · exact Or.inl (hyz ▸ hxy)
        · rcases h2 with hyz | ⟨hyz, hys⟩
          · exact Or.inl (hxy ▸ hyz)
          · exact Or.inr ⟨hxy.trans hyz, ih ys zs hxs hys⟩

theorem string_data_inj {a b : String} (h : a.data = b.data) : a = b := by
  cases a
  cases b
  exact congrArg String.mk (by simpa using h)

theorem string_data_eq_iff (a b : String) : a.data = b.data ↔ a = b :=
  ⟨string_data_inj, fun h => h ▸ rfl⟩

theorem entry_cmp_eq_iff (a b : String × Bool) : entry_cmp a b = .eq ↔ a = b := by
  obtain ⟨na, fa⟩ := a
  obtain ⟨nb, fb⟩ := b
  cases fa <;> cases fb <;>
    simp [entry_cmp, nameCmp_eq_iff, string_data_eq_iff, Prod.ext_iff]

theorem entry_cmp_swap (a b : String × Bool) :
    (entry_cmp a b).swap = entry_cmp b a := by
  obtain ⟨na, fa⟩ := a
  obtain ⟨nb, fb⟩ := b
  cases fa <;> cases fb <;>
    simp [entry_cmp] <;>
    first
      | exact nameCmp_swap _ _
      | rfl

theorem entry_cmp_le_trans (a b c : String × Bool)
    (h1 : entry_cmp a b ≠ .gt) (h2 : entry_cmp b c ≠ .gt) :
    entry_cmp a c ≠ .gt := by
  obtain ⟨na, fa⟩ := a
  obtain ⟨nb, fb⟩ := b
  obtain ⟨nc, fc⟩ := c
  cases fa <;> cases fb <;> cases fc <;>
    simp [entry_cmp] at h1 h2 ⊢ <;>
    exact nameCmp_le_trans _ _ _ h1 h2

theorem insertBy_perm {α : Type} (cmp : α → α → Ordering) (x : α)
    (l : List α) : (insertBy cmp x l).Perm (x :: l) := by
  induction l with
  | nil => exact List.Perm.refl _
  | cons y ys ih =>
    simp only [insertBy]
    cases cmp x y with
    | lt => exact List.Perm.refl _
    | eq => exact (ih.cons y).trans (List.Perm.swap x y ys)
    | gt => exact (ih.cons y).trans (List.Perm.swap x y ys)

theorem pairwise_insertBy {α : Type} {cmp : α → α → Ordering}
    (hswap : ∀ a b, (cmp a b).swap = cmp b a)
    (htrans : ∀ a b c, cmp a b ≠ .gt → cmp b c ≠ .gt → cmp a c ≠ .gt)
    (x : α) {l : List α}
    (hl : List.Pairwise (fun a b => cmp a b ≠ .gt) l) :
    List.Pairwise (fun a b => cmp a b ≠ .gt) (insertBy cmp x l) := by
  induction l with
  | nil => simp [insertBy]
  | cons y ys ih =>
    rw [List.pairwise_cons] at hl
    obtain ⟨hy, hys⟩ := hl
    simp only [insertBy]
    cases h : cmp x y with
    | lt =>
      rw [List.pairwise_cons]
      constructor
      · intro z hz
        rcases List.mem_cons.mp hz with rfl | hz'
        · rw [h]; intro hc; cases hc
        · exact htrans x y z (by rw [h]; intro hc; cases hc) (hy z hz')
      · exact List.pairwise_cons.mpr ⟨hy, hys⟩
    | eq =>
      rw [List.pairwise_cons]
      constructor
      · intro z hz
        rcases List.mem_cons.mp ((insertBy_perm cmp x ys).subset hz)
          with rfl | hz'
        · rw [← hswap z y, h]; intro hc; cases hc
        · exact hy z hz'
      · exact ih hys
    | gt =>
      rw [List.pairwise_cons]
      constructor
      · intro z hz
        rcases List.mem_cons.mp ((insertBy_perm cmp x ys).subset hz)
          with rfl | hz'
        · rw [← hswap z y, h]; intro hc; cases hc
        · exact hy z hz'
      · exact ih hys

theorem perm_sort_by {α : Type} (cmp : α → α → Ordering) (l : List α) :
    (sort_by cmp l).Perm l := by
  induction l with
  | nil => exact List.Perm.refl _
  | cons x xs ih => exact (insertBy_perm cmp x _).trans (ih.cons x)

theorem pairwise_sort_by {α : Type} {cmp : α → α → Ordering}
    (hswap : ∀ a b, (cmp a b).swap = cmp b a)
    (htrans : ∀ a b c, cmp a b ≠ .gt → cmp b c ≠ .gt → cmp a c ≠ .gt)
    (l : List α) :
    List.Pairwise (fun a b => cmp a b ≠ .gt) (sort_by cmp l) := by
  induction l with
  | nil => simp [sort_by]
  | cons x xs ih => exact pairwise_insertBy hswap htrans x ih

/- `connect` is all-or-nothing: any failing step leaves the record exactly
as it was. -/
theorem connect_error_frame (c : SSHConnection) (env : ConnectEnv)
    (e : String) (h : (c.connect env).2 = .error e) :
    (c.connect env).1 = c := by
  obtain ⟨tc, sn, hsk, ua, au, si⟩ := env
  cases tc <;> cases sn <;> cases hsk <;> cases ua <;> cases au <;>
    cases si <;> simp_all [SSHConnection.connect]

/- A successful `connect` sets both handles. -/
theorem connect_ok_handles (c : SSHConnection) (env : ConnectEnv)
    (h : (c.connect env).2 = .ok ()) :
    (c.connect env).1.session = some () ∧ (c.connect env).1.sftp = some () := by
  obtain ⟨tc, sn, hsk, ua, au, si⟩ := env
  cases tc <;> cases sn <;> cases hsk <;> cases ua <;> cases au <;>
    cases si <;> simp_all [SSHConnection.connect]

namespace Ui

/- Operation tasks: every task kind except `Connect` and `Disconnect`. -/
def isOpTask : Task → Bool
  | .Connect _ _ _ _ => false
  | .Disconnect => false
  | _ => true

/- The error result the worker emits for an operation task received while
no connection is adopted. -/
def notConnectedResult : Task → TaskResult
  | .Connect _ _ _ _ => .ConnectResult (.error "Not connected")
  | .ListDirectory _ => .ListDirectoryResult (.error "Not connected")
  | .CreateDirectory _ => .CreateDirectoryResult (.error "Not connected")
  | .CreateFile _ => .CreateFileResult (.error "Not connected")
  | .DownloadFile _ _ => .DownloadFileResult (.error "Not connected")
  | .UploadFile _ _ => .UploadFileResult (.error "Not connected")
  | .DeleteFile _ => .DeleteFileResult (.error "Not connected")
  | .RenameFile _ _ => .RenameFileResult (.error "Not connected")
  | .ReadFile _ => .ReadFileResult (.error "Not connected")
  | .WriteFile _ _ => .WriteFileResult (.error "Not connected")
  | .Disconnect => .DisconnectResult

/- Every handled task emits a result of the matching variant kind. -/
theorem handle_task_kind (st : WorkerState) (t : Task) (env : TaskEnv) :
    resultKind (handle_task st t env).2 = taskKind t := by
  cases t <;> cases hc : st.connection <;>
    simp only [handle_task, hc] <;>
    (try split) <;>
    rfl

/- Tasks other than `Connect` and `Disconnect` never change the adopted
connection. -/
theorem handle_task_connection_frame (st : WorkerState) (t : Task)
    (env : TaskEnv) (h1 : taskKind t ≠ .connect)
    (h2 : taskKind t ≠ .disconnect) :
    (handle_task st t env).1.connection = st.connection := by
  cases t <;>
    first
      | exact absurd rfl h1
      | exact absurd rfl h2
      | (cases hc : st.connection <;> simp [handle_task, hc])

/- `Disconnect` always clears the connection and emits `DisconnectResult`. -/
theorem handle_task_disconnect (st : WorkerState) (env : TaskEnv) :
    (handle_task st Task.Disconnect env).1.connection = none ∧
    (handle_task st Task.Disconnect env).2 = TaskResult.DisconnectResult := by
  cases hc : st.connection <;> simp [handle_task, hc]

/- An operation task handled with no adopted connection changes nothing and
emits the matching `Not connected` error result. -/
theorem handle_task_not_connected (st : WorkerState) (t : Task)
    (env : TaskEnv) (hnone : st.connection = none)
    (hop : isOpTask t = true) :
    handle_task st t env = (st, notConnectedResult t) := by
  cases t <;>
    simp_all [handle_task, isOpTask, notConnectedResult]

/- The worker loop emits exactly one result per task, in order, with
matching variant kinds. -/
theorem run_worker_kinds (st : WorkerState) (ts : List (Task × TaskEnv)) :
    ((run_worker st ts).1).map resultKind = ts.map (fun x => taskKind x.1) := by
  induction ts generalizing st with
  | nil => rfl
  | cons hd tl ih =>
    obtain ⟨t, env⟩ := hd
    simp [run_worker, handle_task_kind, ih]

/- A worker with no adopted connection answers a queue of operation tasks
with the matching `Not connected` errors and keeps its state unchanged. -/
theorem run_worker_not_connected (st : WorkerState)
    (ts : List (Task × TaskEnv)) (hnone : st.connection = none)
    (hops : ∀ x ∈ ts, isOpTask x.1 = true) :
    (run_worker st ts).1 = ts.map (fun x => notConnectedResult x.1) ∧
    (run_worker st ts).2 = st := by
  induction ts with
  | nil => exact ⟨rfl, rfl⟩
  | cons hd tl ih =>
    obtain ⟨t, env⟩ := hd
    have hstep := handle_task_not_connected st t env hnone
      (hops (t, env) (List.mem_cons_self _ _))
    have htl := ih (fun x hx => hops x (List.mem_cons_of_mem _ hx))
    simp [run_worker, hstep, htl.1, htl.2]

end Ui

/- A `Connect` task whose connect attempt fails is answered with the error
result and leaves the whole worker state unchanged. -/
theorem Ui.handle_task_connect_fail (st : Ui.WorkerState)
    (h u p : String) (prt : Nat) (env : Ui.TaskEnv) (e : String)
    (hfail : ((SSHConnection.new h u p prt).connect env.connectEnv).2
      = Except.error e) :
    Ui.handle_task st (Ui.Task.Connect h u p prt) env
      = (st, Ui.TaskResult.ConnectResult
          (Except.error ("Failed to connect: " ++ e))) := by
  simp [Ui.handle_task, hfail]

/- A `Connect` task whose connect attempt succeeds adopts the new session
and is answered with the ok result. -/
theorem Ui.handle_task_connect_ok (st : Ui.WorkerState)
    (h u p : String) (prt : Nat) (env : Ui.TaskEnv)
    (hsucc : ((SSHConnection.new h u p prt).connect env.connectEnv).2
      = Except.ok ()) :
    (Ui.handle_task st (Ui.Task.Connect h u p prt) env).1.connection
      = some ((SSHConnection.new h u p prt).connect env.connectEnv).1
    ∧ (Ui.handle_task st (Ui.Task.Connect h u p prt) env).2
      = Ui.TaskResult.ConnectResult (Except.ok ()) := by
  constructor <;> simp [Ui.handle_task, hsucc]

/- `list_directory` on a connected session with a readable directory. -/
theorem list_directory_connected (c : SSHConnection)
    (hsftp : c.sftp = some ()) (entries : List RawEntry) :
    c.list_directory (Except.ok entries)
      = Except.ok (sort_by entry_cmp (processEntries entries)) := by
  simp [SSHConnection.list_directory, hsftp]

/-- C1: for every queue of N submitted tasks, the sequential worker loop of
`BackgroundWorker::new` emits exactly N results, in submission order, and
the k-th result's variant kind matches the k-th task's variant kind
(`ConnectResult` for `Connect`, `ListDirectoryResult` for `ListDirectory`,
and so on). -/
theorem c1_fifo_one_result_per_task (st : Ui.WorkerState)
    (ts : List (Ui.Task × Ui.TaskEnv)) :
    ((Ui.run_worker st ts).1).length = ts.length ∧
    ((Ui.run_worker st ts).1).map Ui.resultKind
      = ts.map (fun x => Ui.taskKind x.1) := by
  refine ⟨?_, Ui.run_worker_kinds st ts⟩
  have h := congrArg List.length (Ui.run_worker_kinds st ts)
  simpa using h

/- Concrete objects used for concrete instantiations below. -/
def connectedConn : SSHConnection :=
  { hostname := "h", username := "u", password := "p", port := 22,
    session := some (), sftp := some () }

def disconnectedConn : SSHConnection := SSHConnection.new "h" "u" "p" 22

def emptyFS : FileMap := fun _ => none

def envAllOk : ConnectEnv :=
  { tcpConnect := .ok (), sessionNew := .ok (), handshake := .ok (),
    userauthPassword := .ok (), authenticated := true, sftpInit := .ok () }

def envAuthFail : ConnectEnv :=
  { envAllOk with userauthPassword := .error "auth" }

def Ui.taskEnvOk : Ui.TaskEnv :=
  { connectEnv := envAllOk, readdirRes := .ok [], mkdirRes := .ok (),
    unlinkRes := .ok (), renameRes := .ok () }

def Ui.taskEnvAuthFail : Ui.TaskEnv :=
  { Ui.taskEnvOk with connectEnv := envAuthFail }

def Ui.stConnected : Ui.WorkerState :=
  { connection := some connectedConn, remoteFS := emptyFS,
    localFS := emptyFS }

def Ui.stNone : Ui.WorkerState :=
  { connection := none, remoteFS := emptyFS, localFS := emptyFS }

/-- C2 counterexample: with a previously adopted session, a failed `Connect`
does NOT leave the dispatcher without an adopted session — the old session
stays adopted — and the next `ListDirectory` task is answered from that old
session with an ok result, not with a `NotConnected` error. -/
theorem c2_counterexample :
    (Ui.handle_task Ui.stConnected (Ui.Task.Connect "h2" "u2" "bad" 22)
        Ui.taskEnvAuthFail).1.connection = some connectedConn
    ∧ (Ui.handle_task
        (Ui.handle_task Ui.stConnected (Ui.Task.Connect "h2" "u2" "bad" 22)
          Ui.taskEnvAuthFail).1
        (Ui.Task.ListDirectory "/") Ui.taskEnvOk).2
      = Ui.TaskResult.ListDirectoryResult (Except.ok []) :=
  ⟨rfl, rfl⟩

/-- C2 (amended): when the dispatcher has NO adopted session at the time of
a failed `Connect`, it still has none afterwards; every following queue of
operation tasks is answered with the matching `NotConnected` error results;
and a later successful `Connect` adopts a session, after which a
`ListDirectory` against a readable directory succeeds again. -/
theorem c2_amended_failed_connect
    (st : Ui.WorkerState) (env1 env2 env3 : Ui.TaskEnv)
    (h u p : String) (prt : Nat) (e : String)
    (hnone : st.connection = none)
    (hfail : ((SSHConnection.new h u p prt).connect env1.connectEnv).2
      = Except.error e)
    (ts : List (Ui.Task × Ui.TaskEnv))
    (hops : ∀ x ∈ ts, Ui.isOpTask x.1 = true)
    (hsucc : ((SSHConnection.new h u p prt).connect env2.connectEnv).2
      = Except.ok ())
    (entries : List RawEntry)
    (hrd : env3.readdirRes = Except.ok entries) :
    (Ui.handle_task st (Ui.Task.Connect h u p prt) env1).1.connection = none
    ∧ (Ui.run_worker
        (Ui.handle_task st (Ui.Task.Connect h u p prt) env1).1 ts).1
      = ts.map (fun x => Ui.notConnectedResult x.1)
    ∧ (Ui.handle_task
        (Ui.handle_task
          (Ui.run_worker
            (Ui.handle_task st (Ui.Task.Connect h u p prt) env1).1 ts).2
          (Ui.Task.Connect h u p prt) env2).1
        (Ui.Task.ListDirectory "/") env3).2
      = Ui.TaskResult.ListDirectoryResult
          (Except.ok (sort_by entry_cmp (processEntries entries))) := by
  have hstep := Ui.handle_task_connect_fail st h u p prt env1 e hfail
  rw [hstep]
  refine ⟨hnone, ?_, ?_⟩
  · exact (Ui.run_worker_not_connected st ts hnone hops).1
  · rw [(Ui.run_worker_not_connected st ts hnone hops).2]
    have hok := Ui.handle_task_connect_ok st h u p prt env2 hsucc
    have hsftp :=
      (connect_ok_handles (SSHConnection.new h u p prt) env2.connectEnv
        hsucc).2
    simp only [Ui.handle_task, hsucc, hrd,
      list_directory_connected _ hsftp entries]

/-- C2 amended-claim witness at concrete inputs: an initially session-less
dispatcher, a failed then a successful connect attempt, and one operation
task in between. -/
theorem c2_amended_witness :
    Ui.stNone.connection = none
    ∧ ((SSHConnection.new "h" "u" "bad" 22).connect
        Ui.taskEnvAuthFail.connectEnv).2
      = Except.error "Authentication error: auth"
    ∧ (∀ x ∈ ([(Ui.Task.DeleteFile "/f", Ui.taskEnvOk)] :
        List (Ui.Task × Ui.TaskEnv)), Ui.isOpTask x.1 = true)
    ∧ ((SSHConnection.new "h" "u" "bad" 22).connect
        Ui.taskEnvOk.connectEnv).2 = Except.ok ()
    ∧ Ui.taskEnvOk.readdirRes = Except.ok []
    ∧ (Ui.handle_task Ui.stNone (Ui.Task.Connect "h" "u" "bad" 22)
        Ui.taskEnvAuthFail).1.connection = none
    ∧ (Ui.run_worker
        (Ui.handle_task Ui.stNone (Ui.Task.Connect "h" "u" "bad" 22)
          Ui.taskEnvAuthFail).1
        [(Ui.Task.DeleteFile "/f", Ui.taskEnvOk)]).1
      = [Ui.TaskResult.DeleteFileResult (Except.error "Not connected")]
    ∧ (Ui.handle_task
        (Ui.handle_task
          (Ui.run_worker
            (Ui.handle_task Ui.stNone (Ui.Task.Connect "h" "u" "bad" 22)
              Ui.taskEnvAuthFail).1
            [(Ui.Task.DeleteFile "/f", Ui.taskEnvOk)]).2
          (Ui.Task.Connect "h" "u" "bad" 22) Ui.taskEnvOk).1
        (Ui.Task.ListDirectory "/") Ui.taskEnvOk).2
      = Ui.TaskResult.ListDirectoryResult (Except.ok []) := by
  have hops : ∀ x ∈ ([(Ui.Task.DeleteFile "/f", Ui.taskEnvOk)] :
      List (Ui.Task × Ui.TaskEnv)), Ui.isOpTask x.1 = true := by
    intro x hx
    rw [List.mem_singleton.mp hx]
    rfl
  have hmain := c2_amended_failed_connect Ui.stNone Ui.taskEnvAuthFail
    Ui.taskEnvOk Ui.taskEnvOk "h" "u" "bad" 22 "Authentication error: auth"
    rfl rfl [(Ui.Task.DeleteFile "/f", Ui.taskEnvOk)] hops rfl [] rfl
  exact ⟨rfl, rfl, hops, rfl, rfl, hmain.1, hmain.2.1, hmain.2.2⟩

/- An entry that is not after a directory in comparator order and precedes
it cannot be a file: files compare `gt` against directories. -/
theorem entry_cmp_dir_before {a b : String × Bool}
    (h : entry_cmp a b ≠ .gt) (hb : b.2 = true) : a.2 = true := by
  by_contra ha
  rw [Bool.not_eq_true] at ha
  simp [entry_cmp, ha, hb] at h

/- Within one group (equal flags) the comparator is the name comparison. -/
theorem entry_cmp_same_group {a b : String × Bool}
    (h : entry_cmp a b ≠ .gt) (hf : a.2 = b.2) :
    nameCmp a.1.data b.1.data ≠ .gt := by
  cases hb : b.2 <;>
    · have ha := hf.trans hb
      simpa [entry_cmp, ha, hb] using h

/-- C3: a successful `list_directory` returns a permutation of the readdir
entries, sorted so that every directory precedes every file with names in
byte/codepoint lexicographic order inside each group; the comparator is a
total order whose only equal pairs are equal entries (and in particular
entries with equal names). -/
theorem c3_list_directory_sorted (conn : SSHConnection)
    (entries : List RawEntry) (res : List (String × Bool))
    (hconn : conn.sftp = some ())
    (hres : conn.list_directory (Except.ok entries) = Except.ok res) :
    res.Perm (processEntries entries)
    ∧ List.Pairwise (fun a b => entry_cmp a b ≠ Ordering.gt) res
    ∧ (∀ i j : Fin res.length, i < j →
        (res.get j).2 = true → (res.get i).2 = true)
    ∧ (∀ i j : Fin res.length, i < j → (res.get i).2 = (res.get j).2 →
        nameCmp (res.get i).1.data (res.get j).1.data ≠ Ordering.gt)
    ∧ (∀ a b : String × Bool, entry_cmp a b = Ordering.eq → a = b)
    ∧ (∀ a b : String × Bool, (entry_cmp a b).swap = entry_cmp b a)
    ∧ (∀ a b c : String × Bool, entry_cmp a b ≠ Ordering.gt →
        entry_cmp b c ≠ Ordering.gt → entry_cmp a c ≠ Ordering.gt) := by
  rw [list_directory_connected conn hconn entries] at hres
  injection hres with hres'
  subst hres'
  have hpair := pairwise_sort_by entry_cmp_swap entry_cmp_le_trans
    (processEntries entries)
  have hget : ∀ i j : Fin (sort_by entry_cmp (processEntries entries)).length,
      i < j →
      entry_cmp ((sort_by entry_cmp (processEntries entries)).get i)
          ((sort_by entry_cmp (processEntries entries)).get j)
        ≠ Ordering.gt := by
    intro i j hij
    have := List.pairwise_iff_getElem.mp hpair i.1 j.1 i.2 j.2 hij
    simpa [List.get_eq_getElem] using this
  refine ⟨perm_sort_by entry_cmp _, hpair, ?_, ?_,
    fun a b => (entry_cmp_eq_iff a b).mp, entry_cmp_swap,
    entry_cmp_le_trans⟩
  · intro i j hij hdir
    exact entry_cmp_dir_before (hget i j hij) hdir
  · intro i j hij hsame
    exact entry_cmp_same_group (hget i j hij) hsame

/- The spec's ordering example input. -/
def sampleEntries : List RawEntry :=
  [(some "b.txt", false), (some "A", true), (some "a.txt", false),
   (some "Z", true)]

def sampleSorted : List (String × Bool) :=
  [("A", true), ("Z", true), ("a.txt", false), ("b.txt", false)]

/-- C3 witness: the sorting theorem applied to a concrete connected session
and a concrete readdir result. -/
theorem c3_witness :
    connectedConn.sftp = some ()
    ∧ connectedConn.list_directory (Except.ok sampleEntries)
      = Except.ok sampleSorted
    ∧ sampleSorted.Perm (processEntries sampleEntries) :=
  ⟨rfl, rfl,
    (c3_list_directory_sorted connectedConn sampleEntries sampleSorted
      rfl rfl).1⟩

/- The §3 data-model invariant: the SFTP handle is present exactly when the
session handle is. -/
def connInv (c : SSHConnection) : Prop := c.sftp.isSome ↔ c.session.isSome

/-- C4: the handles invariant holds after `new`, is preserved by `connect`
(whatever the outcome) and by `disconnect`; `connect` is all-or-nothing: on
any failing step both handles are exactly as before the call, and only full
success sets both handles. Operations other than `connect` and `disconnect`
take the connection immutably (`&self` in the source) and so preserve the
invariant trivially. -/
theorem c4_connect_all_or_nothing (h u p : String) (prt : Nat)
    (c : SSHConnection) (env : ConnectEnv) :
    connInv (SSHConnection.new h u p prt)
    ∧ (∀ e, (c.connect env).2 = Except.error e → (c.connect env).1 = c)
    ∧ ((c.connect env).2 = Except.ok () →
        (c.connect env).1.session = some ()
        ∧ (c.connect env).1.sftp = some ())
    ∧ (connInv c → connInv (c.connect env).1)
    ∧ connInv c.disconnect := by
  refine ⟨?_, ?_, ?_, ?_, ?_⟩
  · simp [connInv, SSHConnection.new]
  · intro e he
    exact connect_error_frame c env e he
  · intro hok
    exact connect_ok_handles c env hok
  · intro hinv
    cases hr : (c.connect env).2 with
    | error e =>
      rw [connect_error_frame c env e hr]
      exact hinv
    | ok v =>
      cases v
      have hh := connect_ok_handles c env hr
      simp [connInv, hh.1, hh.2]
  · simp [connInv, SSHConnection.disconnect]

/-- C4 witness: the invariant theorem applied at a concrete connection and
concrete failing and succeeding connect environments. -/
theorem c4_witness :
    connInv (SSHConnection.new "h" "u" "p" 22)
    ∧ (connectedConn.connect envAuthFail).2
      = Except.error "Authentication error: auth"
    ∧ (connectedConn.connect envAuthFail).1 = connectedConn
    ∧ (disconnectedConn.connect envAllOk).2 = Except.ok ()
    ∧ (disconnectedConn.connect envAllOk).1.sftp = some ()
    ∧ connInv connectedConn.disconnect := by
  have hm1 := c4_connect_all_or_nothing "h" "u" "p" 22 connectedConn envAuthFail
  have hm2 := c4_connect_all_or_nothing "h" "u" "p" 22 disconnectedConn envAllOk
  exact ⟨hm1.1, rfl, hm1.2.1 "Authentication error: auth" rfl, rfl,
    (hm2.2.2.1 rfl).2, hm1.2.2.2.2⟩

/-- C5: on a disconnected session (both handles `none`) every operation
other than `connect` returns a `NotConnected`-style `Err` value (with the
exact message the source produces) and leaves the file stores untouched,
and `disconnect` succeeds and leaves the session disconnected. -/
theorem c5_disconnected_operations_error (conn : SSHConnection)
    (hs : conn.session = none) (hf : conn.sftp = none)
    (rd : Except String (List RawEntry)) (fs lfs : FileMap)
    (p q : String) (content : List Nat) (r1 r2 r3 : Except String Unit)
    (runCmd : String → Except String String) :
    conn.list_directory rd = Except.error "SFTP subsystem not initialized."
    ∧ conn.read_file fs p = Except.error "SFTP subsystem not initialized."
    ∧ (conn.write_file fs p content).2
      = Except.error "SFTP subsystem not initialized."
    ∧ (conn.write_file fs p content).1 = fs
    ∧ conn.create_directory r1
      = Except.error "SFTP subsystem not initialized."
    ∧ (conn.create_file fs p).2
      = Except.error "SFTP subsystem not initialized."
    ∧ (conn.create_file fs p).1 = fs
    ∧ conn.delete_file r2 = Except.error "SFTP subsystem not initialized."
    ∧ conn.rename r3 = Except.error "SFTP session not initialized."
    ∧ (conn.download_file fs lfs p q).2
      = Except.error "SFTP subsystem not initialized."
    ∧ (conn.download_file fs lfs p q).1 = lfs
    ∧ (conn.upload_file lfs fs p q).2
      = Except.error "SFTP subsystem not initialized."
    ∧ (conn.upload_file lfs fs p q).1 = fs
    ∧ conn.fetch_stats runCmd = Except.error "Session not initialized."
    ∧ conn.disconnect.session = none
    ∧ conn.disconnect.sftp = none := by
  refine ⟨?_, ?_, ?_, ?_, ?_, ?_, ?_, ?_, ?_, ?_, ?_, ?_, ?_, ?_, ?_, ?_⟩ <;>
    simp [SSHConnection.list_directory, SSHConnection.read_file,
      SSHConnection.write_file, SSHConnection.create_directory,
      SSHConnection.create_file, SSHConnection.delete_file,
      SSHConnection.rename, SSHConnection.download_file,
      SSHConnection.upload_file, SSHConnection.fetch_stats,
      SSHConnection.disconnect, hs, hf]

/-- C5 witness: the disconnected-operations theorem applied to a freshly
constructed (never connected) session and concrete arguments. -/
theorem c5_witness :
    disconnectedConn.session = none
    ∧ disconnectedConn.sftp = none
    ∧ disconnectedConn.list_directory (Except.ok [])
      = Except.error "SFTP subsystem not initialized."
    ∧ disconnectedConn.fetch_stats (fun _ => Except.ok "")
      = Except.error "Session not initialized." :=
  ⟨rfl, rfl,
    (c5_disconnected_operations_error disconnectedConn rfl rfl
      (Except.ok []) emptyFS emptyFS "/a" "/b" [] (Except.ok ())
      (Except.ok ()) (Except.ok ()) (fun _ => Except.ok "")).1,
    (c5_disconnected_operations_error disconnectedConn rfl rfl
      (Except.ok []) emptyFS emptyFS "/a" "/b" [] (Except.ok ())
      (Except.ok ()) (Except.ok ()) (fun _ => Except.ok "")).2.2.2.2.2.2.2.2.2.2.2.2.2.1⟩

/-- C6: on a connected session, `upload_file` of a local file followed by
`download_file` of the resulting remote path to a fresh local destination
reproduces byte-identical content; the transfer is the 8192-byte chunked
copy loop, whose output equals its input for contents of any length,
including those spanning multiple chunks. -/
theorem c6_upload_download_roundtrip (conn : SSHConnection)
    (localFS remoteFS : FileMap) (lp rp dest : String)
    (content : List Nat)
    (hconn : conn.sftp = some ())
    (hl : localFS lp = some content) :
    (conn.upload_file localFS remoteFS lp rp).2 = Except.ok ()
    ∧ (conn.upload_file localFS remoteFS lp rp).1 rp = some content
    ∧ (conn.download_file (conn.upload_file localFS remoteFS lp rp).1
        localFS rp dest).2 = Except.ok ()
    ∧ (conn.download_file (conn.upload_file localFS remoteFS lp rp).1
        localFS rp dest).1 dest = some content := by
  have hcopy : copyLoop content [] = content := by
    rw [copyLoop_eq]
    rfl
  simp [SSHConnection.upload_file, SSHConnection.download_file, hconn, hl,
    FileMap.insert, hcopy]

/- A 20 KiB payload spanning three 8 KiB chunks. -/
def bigContent : List Nat := List.replicate 20480 65

def localDisk : FileMap :=
  fun p => if p = "/local/file" then some bigContent else none

/-- C6 witness: the round-trip theorem applied to a concrete connected
session and a concrete 20 KiB local file. -/
theorem c6_witness :
    connectedConn.sftp = some ()
    ∧ localDisk "/local/file" = some bigContent
    ∧ (connectedConn.download_file
        (connectedConn.upload_file localDisk emptyFS
          "/local/file" "/remote/file").1
        localDisk "/remote/file" "/local/copy").1 "/local/copy"
      = some bigContent :=
  ⟨rfl, rfl,
    (c6_upload_download_roundtrip connectedConn localDisk emptyFS
      "/local/file" "/remote/file" "/local/copy" bigContent rfl rfl).2.2.2⟩

/-- C7: on a connected session, `write_file` (which truncates or creates the
file) followed by `read_file` on the same path returns exactly the written
content, for every path and every content including the empty one. -/
theorem c7_write_read_roundtrip (conn : SSHConnection) (fs : FileMap)
    (path : String) (content : List Nat)
    (hconn : conn.sftp = some ()) :
    (conn.write_file fs path content).2 = Except.ok ()
    ∧ conn.read_file (conn.write_file fs path content).1 path
      = Except.ok content := by
  simp [SSHConnection.write_file, SSHConnection.read_file, hconn,
    FileMap.insert]

/-- C7 witness: the write/read round-trip applied to a concrete connected
session with empty content. -/
theorem c7_witness :
    connectedConn.sftp = some ()
    ∧ (connectedConn.write_file emptyFS "/f.txt" []).2 = Except.ok ()
    ∧ connectedConn.read_file
        (connectedConn.write_file emptyFS "/f.txt" []).1 "/f.txt"
      = Except.ok [] :=
  ⟨rfl, (c7_write_read_roundtrip connectedConn emptyFS "/f.txt" [] rfl).1,
    (c7_write_read_roundtrip connectedConn emptyFS "/f.txt" [] rfl).2⟩

/-- C8: `process_stats` indexes the whitespace-split fields of the three
command outputs at fixed positions (cpu 1, 3, 7, 15; memory 1, 2, 3, 5;
disk 0-4) with no bounds check, so for malformed output — here the empty
string — the totalised embedding reaches the out-of-bounds branch and
returns `none` (the Rust source panics with an index-out-of-range failure
instead of returning a `ParseError`). -/
theorem c8_process_stats_out_of_range : process_stats "" "" "" = none := by
  rfl

/-- C9: one step of the worker loop, framed on the adopted session: any
task other than `Connect` and `Disconnect` leaves it unchanged;
`Disconnect` clears it unconditionally and emits `DisconnectResult`;
`Connect` adopts the newly constructed session exactly when the connect
attempt succeeds and on failure leaves the previously adopted session
(possibly none) in place. -/
theorem c9_handle_task_connection_frame (st : Ui.WorkerState) (t : Ui.Task)
    (env : Ui.TaskEnv) (h u p : String) (prt : Nat) :
    (Ui.taskKind t ≠ Ui.TaskKind.connect →
      Ui.taskKind t ≠ Ui.TaskKind.disconnect →
      (Ui.handle_task st t env).1.connection = st.connection)
    ∧ (Ui.handle_task st Ui.Task.Disconnect env).1.connection = none
    ∧ (Ui.handle_task st Ui.Task.Disconnect env).2
      = Ui.TaskResult.DisconnectResult
    ∧ (((SSHConnection.new h u p prt).connect env.connectEnv).2
        = Except.ok () →
      (Ui.handle_task st (Ui.Task.Connect h u p prt) env).1.connection
        = some ((SSHConnection.new h u p prt).connect env.connectEnv).1)
    ∧ (∀ e, ((SSHConnection.new h u p prt).connect env.connectEnv).2
        = Except.error e →
      (Ui.handle_task st (Ui.Task.Connect h u p prt) env).1.connection
        = st.connection) := by
  refine ⟨Ui.handle_task_connection_frame st t env,
    (Ui.handle_task_disconnect st env).1,
    (Ui.handle_task_disconnect st env).2, ?_, ?_⟩
  · intro hok
    exact (Ui.handle_task_connect_ok st h u p prt env hok).1
  · intro e he
    rw [Ui.handle_task_connect_fail st h u p prt env e he]

/-- C9 witness: the frame theorem applied to a dispatcher with an adopted
session, a `DeleteFile` task, a `Disconnect` task, and a failing connect
environment. -/
theorem c9_witness :
    Ui.taskKind (Ui.Task.DeleteFile "/f") ≠ Ui.TaskKind.connect
    ∧ Ui.taskKind (Ui.Task.DeleteFile "/f") ≠ Ui.TaskKind.disconnect
    ∧ (Ui.handle_task Ui.stConnected (Ui.Task.DeleteFile "/f")
        Ui.taskEnvOk).1.connection = Ui.stConnected.connection
    ∧ (Ui.handle_task Ui.stConnected Ui.Task.Disconnect
        Ui.taskEnvOk).1.connection = none
    ∧ ((SSHConnection.new "h" "u" "p" 22).connect
        Ui.taskEnvAuthFail.connectEnv).2
      = Except.error "Authentication error: auth"
    ∧ (Ui.handle_task Ui.stConnected
        (Ui.Task.Connect "h" "u" "p" 22) Ui.taskEnvAuthFail).1.connection
      = Ui.stConnected.connection := by
  have hm := c9_handle_task_connection_frame Ui.stConnected
    (Ui.Task.DeleteFile "/f") Ui.taskEnvOk "h" "u" "p" 22
  have hm2 := c9_handle_task_connection_frame Ui.stConnected
    (Ui.Task.DeleteFile "/f") Ui.taskEnvAuthFail "h" "u" "p" 22
  exact ⟨by decide, by decide, hm.1 (by decide) (by decide), hm.2.1, rfl,
    hm2.2.2.2.2 "Authentication error: auth" rfl⟩

/-- C10: when the poll loop receives an error `ListDirectoryResult` or an
error `ReadFileResult`, it records the error detail as the status message,
submits no follow-up task, and leaves the previously displayed state
unchanged: the files list survives a listing failure and the edited file
content survives a read failure. -/
theorem c10_poll_error_leaves_state (st : Ui.UIStateM) (e1 e2 : String) :
    (Ui.poll_worker_step st
        (Ui.TaskResult.ListDirectoryResult (Except.error e1))).1.error_message
      = some e1
    ∧ (Ui.poll_worker_step st
        (Ui.TaskResult.ListDirectoryResult (Except.error e1))).1.files
      = st.files
    ∧ (Ui.poll_worker_step st
        (Ui.TaskResult.ListDirectoryResult (Except.error e1))).1.file_content
      = st.file_content
    ∧ (Ui.poll_worker_step st
        (Ui.TaskResult.ListDirectoryResult (Except.error e1))).2 = []
    ∧ (Ui.poll_worker_step st
        (Ui.TaskResult.ReadFileResult (Except.error e2))).1.error_message
      = some e2
    ∧ (Ui.poll_worker_step st
        (Ui.TaskResult.ReadFileResult (Except.error e2))).1.file_content
      = st.file_content
    ∧ (Ui.poll_worker_step st
        (Ui.TaskResult.ReadFileResult (Except.error e2))).1.files
      = st.files
    ∧ (Ui.poll_worker_step st
        (Ui.TaskResult.ReadFileResult (Except.error e2))).2 = [] :=
  ⟨rfl, rfl, rfl, rfl, rfl, rfl, rfl, rfl⟩
